import Mathlib

/-!
Shallow embedding of the snark-proof-chat Groth16 proof-verification service:
the `verify-zk-proof` Supabase edge function (its local-snarkjs variant and its
delegate/vkey variant) and the acceptance policy of the `send-message` handler.

JavaScript truthiness is modelled explicitly: a request field that is absent,
`null` or otherwise falsy is `none`; a present (truthy) value is `some`.  In
particular an empty array is truthy in JavaScript, so it is `some []` here.
External collaborators (the delegate verifier's HTTP response, the clock, the
key-fetch result, the snarkjs pairing routine) are parameters of the handlers.
-/

/-- A Groth16 proof object as received in the request JSON
(verify-zk-proof/index.ts, `ZKProofVerificationRequest.proof`).  Each field is
`none` when absent/falsy in the JSON and `some` when present. -/
structure Groth16Proof where
  pi_a : Option (List String)
  pi_b : Option (List (List String))
  pi_c : Option (List String)
  protocol : Option String
  curve : Option String
  deriving DecidableEq

/-- Opaque verification-key JSON (the code never inspects it, only forwards
it), represented by its serialized text. -/
structure VKey where
  payload : String
  deriving DecidableEq

/-- Request body of the third variant of verify-zk-proof
(`proof`, `publicSignals`, optional `vkey`, optional `verifierUrl`). -/
structure ZKProofVerificationRequest where
  proof : Option Groth16Proof
  publicSignals : Option (List String)
  vkey : Option VKey
  verifierUrl : Option String
  deriving DecidableEq

/-- The JSON body + HTTP status the handler responds with.  `status` is the
HTTP status code; the remaining fields are the JSON body fields, `none` when
the branch omits them.  `echoedStatus` is the `status:` body field the
delegate-error branch copies from the delegate's HTTP status. -/
structure HttpResponse where
  status : Nat
  verified : Bool
  error : Option String
  timestamp : Option String
  publicSignalsOut : Option (String × String)
  note : Option String
  echoedStatus : Option Nat
  deriving DecidableEq

/-- What the delegate verifier's HTTP response looks like to the handler:
`resp.ok`, `resp.status`, and the (possibly empty) JSON body fields
`data?.verified`, `data?.timestamp`, `data?.error`. -/
structure DelegateResponse where
  ok : Bool
  status : Nat
  dataVerified : Option Bool
  dataTimestamp : Option String
  dataError : Option String
  deriving DecidableEq

/-- Outcome of the delegate fetch: either a response arrived, or the fetch
threw (network failure, or the 10-second AbortController timeout fired).
`errMsg` is `some m` when the thrown value was an `Error` with message `m`. -/
inductive DelegateOutcome where
  | responded (r : DelegateResponse)
  | unreachable (errMsg : Option String)
  deriving DecidableEq

/-- JavaScript truthiness of an optional string: absent and `""` are falsy. -/
def jsTruthyStr (s : Option String) : Bool :=
  match s with
  | none => false
  | some v => v != ""

/-- JavaScript `a || b` for an optional string `a` and a default `b`:
yields `b` when `a` is absent or the empty string. -/
def jsOr (s : Option String) (dflt : String) : String :=
  match s with
  | none => dflt
  | some v => if v = "" then dflt else v

/-- The structural check `!proof || !proof.pi_a || !proof.pi_b || !proof.pi_c`
(index.ts lines 230): true when the proof and its three group-element fields
are all present (truthy).  Note an empty array is truthy, hence passes. -/
def proofStructureOk (p : Option Groth16Proof) : Bool :=
  match p with
  | none => false
  | some pr => pr.pi_a.isSome && pr.pi_b.isSome && pr.pi_c.isSome

/-- The signals check `!publicSignals || publicSignals.length < 2`
(index.ts line 243), as its positive form. -/
def signalsOk (s : Option (List String)) : Bool :=
  match s with
  | none => false
  | some l => decide (2 ≤ l.length)

/-- The guard `verifierUrl && vkey` (index.ts line 263) deciding whether the
delegate path is taken. -/
def delegateConfigured (req : ZKProofVerificationRequest) : Bool :=
  jsTruthyStr req.verifierUrl && req.vkey.isSome

/-- The millisecond bound of the delegate call's AbortController timer
(index.ts line 267: `setTimeout(() => controller.abort(), 10_000)`). -/
def delegateTimeoutMs : Nat := 10000

/-- Response for a failed proof-structure check (index.ts lines 231-241). -/
def invalidProofStructureResp : HttpResponse :=
  { status := 400, verified := false, error := some "Invalid proof structure",
    timestamp := none, publicSignalsOut := none, note := none, echoedStatus := none }

/-- Response for a failed public-signals check (index.ts lines 244-254). -/
def invalidPublicSignalsResp : HttpResponse :=
  { status := 400, verified := false, error := some "Invalid public signals",
    timestamp := none, publicSignalsOut := none, note := none, echoedStatus := none }

/-- The delegate-path responses (index.ts lines 264-309): a thrown fetch gives
502 with the error's message (or a fixed fallback); `!resp.ok` gives 502
echoing the delegate's error and HTTP status; `resp.ok` gives 200 with
`verified = Boolean(data?.verified)` and `timestamp = data?.timestamp || now`. -/
def delegateBranch (threshold commitment : String) (delegate : DelegateOutcome)
    (nowIso : String) : HttpResponse :=
  match delegate with
  | .unreachable errMsg =>
      { status := 502, verified := false,
        error := some (errMsg.getD "External verifier unreachable"),
        timestamp := none, publicSignalsOut := none, note := none, echoedStatus := none }
  | .responded r =>
      if r.ok then
        { status := 200, verified := r.dataVerified.getD false,
          error := none, timestamp := some (jsOr r.dataTimestamp nowIso),
          publicSignalsOut := some (threshold, commitment), note := none,
          echoedStatus := none }
      else
        { status := 502, verified := false,
          error := some (jsOr r.dataError "External verifier failed"),
          timestamp := none, publicSignalsOut := none, note := none,
          echoedStatus := some r.status }

/-- The structural-fallback response (index.ts lines 313-320). -/
def structuralFallbackResp (threshold commitment : String) : HttpResponse :=
  { status := 200, verified := true, error := none, timestamp := none,
    publicSignalsOut := some (threshold, commitment),
    note := some "Structural validation only; provide verifierUrl and vkey for full verification.",
    echoedStatus := none }

/-- The third variant of the verify-zk-proof handler (index.ts lines 218-320),
after a successful JSON parse.  `delegate` is the outcome the delegate fetch
would have (consulted only when `verifierUrl && vkey`); `nowIso` is
`new Date().toISOString()` at response time. -/
def handler3 (req : ZKProofVerificationRequest) (delegate : DelegateOutcome)
    (nowIso : String) : HttpResponse :=
  if proofStructureOk req.proof = false then invalidProofStructureResp
  else if signalsOk req.publicSignals = false then invalidPublicSignalsResp
  else
    let sigs := req.publicSignals.getD []
    let threshold := sigs.getD 0 ""
    let commitment := sigs.getD 1 ""
    if delegateConfigured req then delegateBranch threshold commitment delegate nowIso
    else structuralFallbackResp threshold commitment

/-- The 500 catch-all response of the outer try/catch (index.ts lines 321-333). -/
def resp500 (msg : String) : HttpResponse :=
  { status := 500, verified := false, error := some msg,
    timestamp := none, publicSignalsOut := none, note := none, echoedStatus := none }

/-- Outcome of `await req.json()`: either a parsed request or a thrown parse
error (`some m` when it was an `Error` with message `m`). -/
inductive ParseOutcome where
  | ok (req : ZKProofVerificationRequest)
  | jsError (msg : Option String)
  deriving DecidableEq

/-- The full third-variant serve body including the outer catch: a JSON parse
failure yields the 500 response with the error's message. -/
def serve3 (p : ParseOutcome) (delegate : DelegateOutcome) (nowIso : String) :
    HttpResponse :=
  match p with
  | .ok req => handler3 req delegate nowIso
  | .jsError m => resp500 (m.getD "Unknown error")

/-- Request body of the second (local-snarkjs) variant of verify-zk-proof
(index.ts lines 102-111): only `proof` and `publicSignals`. -/
structure ZKRequest2 where
  proof : Option Groth16Proof
  publicSignals : Option (List String)
  deriving DecidableEq

/-- Outcome of the per-request fetch of `verification_key.json` from storage
(index.ts lines 126-128). -/
inductive VkeyFetchResult where
  | ok (vkey : VKey)
  | notOk
  deriving DecidableEq

/-- The second variant of the verify-zk-proof handler (index.ts lines
113-195).  It performs no structural validation: it fetches the verification
key (throwing "Verification key not found" into the 500 catch when the fetch
is not ok) and calls `snarkjs.groth16.verify(vkey, publicSignals, proof)`.

`groth16Verify` is a parameter.  Modelled from the spec: the Groth16 pairing
check `e(A,B) == e(alpha,beta)*e(L,gamma)*e(C,delta)` is performed by the
external snarkjs library, which is not part of this repository, so it is
represented as an abstract boolean pairing predicate.  A missing proof or
signals field would make that library call throw; the thrown message is
environment-specific and modelled as the generic catch-all text. -/
def handler2 (req : ZKRequest2) (fetch : VkeyFetchResult)
    (groth16Verify : VKey → List String → Groth16Proof → Bool) : HttpResponse :=
  match fetch with
  | .notOk => resp500 "Verification key not found"
  | .ok vkey =>
    match req.proof, req.publicSignals with
    | some pr, some sigs =>
      if groth16Verify vkey sigs pr then
        { status := 200, verified := true, error := none, timestamp := none,
          publicSignalsOut := some (sigs.getD 0 "", sigs.getD 1 ""),
          note := none, echoedStatus := none }
      else
        { status := 400, verified := false,
          error := some "Invalid zero-knowledge proof",
          timestamp := none, publicSignalsOut := none, note := none,
          echoedStatus := none }
    | _, _ => resp500 "Unknown error"

/-- The send-message acceptance flag (part_002 lines 245-251): the code sets
`let isValidProof = true` unconditionally — when the external verifier
rejected, or no verifier is configured, it only logs a warning. -/
def isValidProof (cryptographicVerification : Bool)
    (verifierUrlConfigured : Bool) : Bool :=
  true

/-- The `verified` flag send-message stores with the message (part_002 lines
237 and 260): it reads `zkResult?.verified ?? false` and then stores
`verified: isValidProof`. -/
def sendMessageVerifiedFlag (zkVerified : Option Bool)
    (verifierUrlConfigured : Bool) : Bool :=
  isValidProof (zkVerified.getD false) verifierUrlConfigured

/-- Number of verification-key fetches one invocation of the second-variant
handler performs: the fetch at index.ts lines 126-128 is unconditional and no
cache is consulted or written, so every invocation performs exactly one.  The
send-message handler likewise downloads the key from storage unconditionally
on every request (part_002 lines 187-190). -/
def handler2VkeyFetchCount (req : ZKRequest2) (fetch : VkeyFetchResult) : Nat := 1

/-- Total verification-key fetches a process performs over a sequence of
served requests. -/
def processVkeyFetches (calls : List (ZKRequest2 × VkeyFetchResult)) : Nat :=
  (calls.map (fun c => handler2VkeyFetchCount c.1 c.2)).sum

/-- Modelled from the spec: the spec's `VerificationOutcome.mode` is not an
explicit field of the code's responses; the spec reads it off the response
shape (400 = invalid input, 502 = delegate unreachable/errored, 500 =
internal error, otherwise `note` present = structural-only and `note` absent =
cryptographic). -/
inductive VerificationMode where
  | Cryptographic
  | StructuralOnly
  | DelegateUnreachable
  | InvalidInput
  | InternalError
  deriving DecidableEq

/-- Reads the spec's mode off a concrete response. -/
def modeOf (r : HttpResponse) : VerificationMode :=
  if r.status = 400 then .InvalidInput
  else if r.status = 502 then .DelegateUnreachable
  else if r.status = 500 then .InternalError
  else if r.note.isSome then .StructuralOnly
  else .Cryptographic

/-- A response with the body's `timestamp` field erased, for stating
clock-independence of everything else. -/
def stripTimestamp (r : HttpResponse) : HttpResponse :=
  { r with timestamp := none }

/- ## Branch-characterisation lemmas for `handler3` -/

theorem handler3_of_structBad (req : ZKProofVerificationRequest)
    (d : DelegateOutcome) (n : String) (h : proofStructureOk req.proof = false) :
    handler3 req d n = invalidProofStructureResp := by
  simp [handler3, h]

theorem handler3_of_sigsBad (req : ZKProofVerificationRequest)
    (d : DelegateOutcome) (n : String) (h1 : proofStructureOk req.proof = true)
    (h2 : signalsOk req.publicSignals = false) :
    handler3 req d n = invalidPublicSignalsResp := by
  simp [handler3, h1, h2]

theorem handler3_of_delegate (req : ZKProofVerificationRequest)
    (d : DelegateOutcome) (n : String) (h1 : proofStructureOk req.proof = true)
    (h2 : signalsOk req.publicSignals = true) (h3 : delegateConfigured req = true) :
    handler3 req d n =
      delegateBranch ((req.publicSignals.getD []).getD 0 "")
        ((req.publicSignals.getD []).getD 1 "") d n := by
  simp [handler3, h1, h2, h3]

theorem handler3_of_fallback (req : ZKProofVerificationRequest)
    (d : DelegateOutcome) (n : String) (h1 : proofStructureOk req.proof = true)
    (h2 : signalsOk req.publicSignals = true) (h3 : delegateConfigured req = false) :
    handler3 req d n =
      structuralFallbackResp ((req.publicSignals.getD []).getD 0 "")
        ((req.publicSignals.getD []).getD 1 "") := by
  simp [handler3, h1, h2, h3]

/- ## Concrete fixtures -/

/-- A structurally well-formed Groth16 proof object. -/
def sampleProof : Groth16Proof :=
  { pi_a := some ["1", "2", "1"],
    pi_b := some [["4", "5"], ["6", "7"], ["1", "0"]],
    pi_c := some ["10", "11", "1"],
    protocol := some "groth16", curve := some "bn128" }

/-- A verification-key fixture. -/
def sampleVKey : VKey := { payload := "vk" }

/-- A well-formed public-signals list: threshold and commitment. -/
def sampleSignals : List String := ["10000", "98765"]

/-- Request with proof and signals but neither vkey nor verifierUrl. -/
def reqFallback : ZKProofVerificationRequest :=
  { proof := some sampleProof, publicSignals := some sampleSignals,
    vkey := none, verifierUrl := none }

/-- Request supplying a vkey directly but no delegate endpoint. -/
def reqKeyOnly : ZKProofVerificationRequest :=
  { proof := some sampleProof, publicSignals := some sampleSignals,
    vkey := some sampleVKey, verifierUrl := none }

/-- Request supplying both a vkey and a delegate endpoint. -/
def reqDelegate : ZKProofVerificationRequest :=
  { proof := some sampleProof, publicSignals := some sampleSignals,
    vkey := some sampleVKey, verifierUrl := some "https://verifier.example/api/verify" }

/-- Request whose publicSignals list is too short. -/
def reqShortSigs : ZKProofVerificationRequest :=
  { proof := some sampleProof, publicSignals := some ["1"],
    vkey := none, verifierUrl := none }

/-- A delegate 200 response that explicitly rejects the proof. -/
def delegateRejects : DelegateResponse :=
  { ok := true, status := 200, dataVerified := some false,
    dataTimestamp := some "2025-01-01T00:00:00.000Z", dataError := none }

/-- A delegate 200 response that accepts but omits the timestamp field. -/
def delegateAcceptsNoTs : DelegateResponse :=
  { ok := true, status := 200, dataVerified := some true,
    dataTimestamp := none, dataError := none }

/-- A delegate 200 response that accepts and carries a timestamp. -/
def delegateAcceptsTs : DelegateResponse :=
  { ok := true, status := 200, dataVerified := some true,
    dataTimestamp := some "2025-01-01T00:00:00.000Z", dataError := none }

/- ## C3 -/

/-- C3: a structurally well-formed request with neither a verification key nor
a delegate endpoint is answered 200 with verified=true, the structural-only
note, and spec mode StructuralOnly. -/
theorem c3_no_key_no_delegate_structural_accept
    (req : ZKProofVerificationRequest) (d : DelegateOutcome) (n : String)
    (h1 : proofStructureOk req.proof = true)
    (h2 : signalsOk req.publicSignals = true)
    (hv : req.vkey = none) (hu : req.verifierUrl = none) :
    (handler3 req d n).verified = true ∧ (handler3 req d n).status = 200 ∧
    (handler3 req d n).note =
      some "Structural validation only; provide verifierUrl and vkey for full verification." ∧
    modeOf (handler3 req d n) = VerificationMode.StructuralOnly := by
  have h3 : delegateConfigured req = false := by
    simp [delegateConfigured, hu, jsTruthyStr]
  rw [handler3_of_fallback req d n h1 h2 h3]
  exact ⟨rfl, rfl, rfl, rfl⟩

/-- Witness for C3 at a concrete request. -/
theorem c3_witness :
    (handler3 reqFallback (DelegateOutcome.unreachable none) "T").verified = true ∧
    modeOf (handler3 reqFallback (DelegateOutcome.unreachable none) "T") =
      VerificationMode.StructuralOnly := by
  have h := c3_no_key_no_delegate_structural_accept reqFallback
    (DelegateOutcome.unreachable none) "T" (by decide) (by decide) rfl rfl
  exact ⟨h.1, h.2.2.2⟩

/- ## C4 -/

/-- C4: the delegate call is bounded by the explicit 10000 ms abort timer, and
when the fetch throws (timeout or network failure) the handler answers 502
with an error field — never a definitive 200 verified=false rejection. -/
theorem c4_delegate_unreachable_is_502 :
    delegateTimeoutMs = 10000 ∧
    ∀ (req : ZKProofVerificationRequest) (msg : Option String) (n : String),
      proofStructureOk req.proof = true → signalsOk req.publicSignals = true →
      delegateConfigured req = true →
      (handler3 req (DelegateOutcome.unreachable msg) n).status = 502 ∧
      (handler3 req (DelegateOutcome.unreachable msg) n).verified = false ∧
      (handler3 req (DelegateOutcome.unreachable msg) n).error ≠ none ∧
      (handler3 req (DelegateOutcome.unreachable msg) n).status ≠ 200 := by
  refine ⟨rfl, ?_⟩
  intro req msg n h1 h2 h3
  rw [handler3_of_delegate req (DelegateOutcome.unreachable msg) n h1 h2 h3]
  simp [delegateBranch]

/-- Witness for C4 at a concrete request. -/
theorem c4_witness :
    (handler3 reqDelegate (DelegateOutcome.unreachable none) "T").status = 502 := by
  exact (c4_delegate_unreachable_is_502.2 reqDelegate none "T"
    (by decide) (by decide) (by decide)).1

/- ## C7 -/

/-- C7: a request whose publicSignals field is missing or shorter than 2 is
answered 400 with verified=false and an error field, and the response does not
depend on the delegate outcome or the clock (no delegate call or acceptance
decision takes place). -/
theorem c7_short_signals_invalid_input
    (req : ZKProofVerificationRequest) (d d' : DelegateOutcome) (n n' : String)
    (h : signalsOk req.publicSignals = false) :
    (handler3 req d n).status = 400 ∧ (handler3 req d n).verified = false ∧
    (handler3 req d n).error ≠ none ∧ handler3 req d n = handler3 req d' n' := by
  by_cases h1 : proofStructureOk req.proof = true
  · rw [handler3_of_sigsBad req d n h1 h, handler3_of_sigsBad req d' n' h1 h]
    simp [invalidPublicSignalsResp]
  · have h1' : proofStructureOk req.proof = false := by
      simpa using h1
    rw [handler3_of_structBad req d n h1', handler3_of_structBad req d' n' h1']
    simp [invalidProofStructureResp]

/-- Witness for C7 at a concrete request with one public signal. -/
theorem c7_witness :
    (handler3 reqShortSigs (DelegateOutcome.unreachable none) "T").status = 400 := by
  exact (c7_short_signals_invalid_input reqShortSigs
    (DelegateOutcome.unreachable none) (DelegateOutcome.responded delegateRejects)
    "T" "U" (by decide)).1

/- ## C1 -/

/-- C1 counterexample: a request supplying a verification key directly (no
verifierUrl) is answered by the structural fallback — verified=true with the
structural-only note, spec mode StructuralOnly — so no pairing check is
performed and the verified field does not equal any pairing result, contrary
to the claim that an available key always yields a Cryptographic-mode pairing
outcome. -/
theorem c1_counterexample :
    reqKeyOnly.vkey.isSome = true ∧
    modeOf (handler3 reqKeyOnly (DelegateOutcome.unreachable none) "T") =
      VerificationMode.StructuralOnly ∧
    (handler3 reqKeyOnly (DelegateOutcome.unreachable none) "T").verified = true := by
  decide

/-- C1 amended: in the local-verification variant the handler's verified field
equals the snarkjs pairing result whenever the key fetch succeeds, with a
negative result answered 400 "Invalid zero-knowledge proof" (never overridden
within the handler); in the deployed variant the pairing check happens only
when both vkey and verifierUrl are supplied, in which case the 200 response's
verified field equals the delegate's boolean result. -/
theorem c1_amended_pairing_result_propagates :
    (∀ (pr : Groth16Proof) (sigs : List String) (k : VKey)
        (gv : VKey → List String → Groth16Proof → Bool),
      (handler2 ⟨some pr, some sigs⟩ (VkeyFetchResult.ok k) gv).verified = gv k sigs pr ∧
      (gv k sigs pr = false →
        (handler2 ⟨some pr, some sigs⟩ (VkeyFetchResult.ok k) gv).status = 400 ∧
        (handler2 ⟨some pr, some sigs⟩ (VkeyFetchResult.ok k) gv).error =
          some "Invalid zero-knowledge proof") ∧
      (gv k sigs pr = true →
        (handler2 ⟨some pr, some sigs⟩ (VkeyFetchResult.ok k) gv).status = 200)) ∧
    (∀ (req : ZKProofVerificationRequest) (r : DelegateResponse) (n : String),
      proofStructureOk req.proof = true → signalsOk req.publicSignals = true →
      delegateConfigured req = true → r.ok = true →
      (handler3 req (DelegateOutcome.responded r) n).verified = r.dataVerified.getD false ∧
      (handler3 req (DelegateOutcome.responded r) n).status = 200) := by
  constructor
  · intro pr sigs k gv
    cases hgv : gv k sigs pr <;> simp [handler2, hgv]
  · intro req r n h1 h2 h3 hok
    rw [handler3_of_delegate req (DelegateOutcome.responded r) n h1 h2 h3]
    simp [delegateBranch, hok]

/-- Witness for the amended C1 at concrete inputs: a pairing function that
rejects yields the 400 rejection locally, and a delegate rejection yields
verified=false on the delegate path. -/
theorem c1_amended_witness :
    (handler2 ⟨some sampleProof, some sampleSignals⟩ (VkeyFetchResult.ok sampleVKey)
      (fun _ _ _ => false)).status = 400 ∧
    (handler3 reqDelegate (DelegateOutcome.responded delegateRejects) "T").verified = false := by
  constructor
  · exact ((c1_amended_pairing_result_propagates.1 sampleProof sampleSignals sampleVKey
      (fun _ _ _ => false)).2.1 rfl).1
  · have h := (c1_amended_pairing_result_propagates.2 reqDelegate delegateRejects "T"
      (by decide) (by decide) (by decide) rfl).1
    exact h.trans rfl

/- ## C2 -/

/-- C2 counterexample: with both vkey and verifierUrl supplied and the
delegate responding 200 with verified=false, the verify-zk-proof handler
answers verified=false (status 200, no structural-only note) — not the claimed
verified=true with mode StructuralOnly. -/
theorem c2_counterexample :
    (handler3 reqDelegate (DelegateOutcome.responded delegateRejects) "T").verified = false ∧
    (handler3 reqDelegate (DelegateOutcome.responded delegateRejects) "T").status = 200 ∧
    (handler3 reqDelegate (DelegateOutcome.responded delegateRejects) "T").note = none := by
  decide

/-- C2 amended: when the delegate explicitly rejects, the verify-zk-proof
handler reports verified=false with status 200; the graceful-degradation
acceptance happens in the send-message caller, whose isValidProof flag is
unconditionally true, so the message is still stored as verified despite the
delegate's rejection. -/
theorem c2_amended_degradation_in_caller
    (req : ZKProofVerificationRequest) (r : DelegateResponse) (n : String)
    (h1 : proofStructureOk req.proof = true)
    (h2 : signalsOk req.publicSignals = true)
    (h3 : delegateConfigured req = true)
    (hok : r.ok = true) (hdv : r.dataVerified = some false) :
    (handler3 req (DelegateOutcome.responded r) n).verified = false ∧
    (handler3 req (DelegateOutcome.responded r) n).status = 200 ∧
    sendMessageVerifiedFlag
      (some (handler3 req (DelegateOutcome.responded r) n).verified) true = true := by
  rw [handler3_of_delegate req (DelegateOutcome.responded r) n h1 h2 h3]
  simp [delegateBranch, hok, hdv, sendMessageVerifiedFlag, isValidProof]

/-- Witness for the amended C2 at concrete inputs. -/
theorem c2_amended_witness :
    (handler3 reqDelegate (DelegateOutcome.responded delegateRejects) "T").verified = false ∧
    sendMessageVerifiedFlag
      (some (handler3 reqDelegate (DelegateOutcome.responded delegateRejects) "T").verified)
      true = true := by
  have h := c2_amended_degradation_in_caller reqDelegate delegateRejects "T"
    (by decide) (by decide) (by decide) rfl rfl
  exact ⟨h.1, h.2.2⟩

/- ## C5 -/

/-- A proof object whose three group-element fields are present but empty
arrays — truthy in JavaScript, so it passes the structural check. -/
def emptyArraysProof : Groth16Proof :=
  { pi_a := some [], pi_b := some [], pi_c := some [],
    protocol := none, curve := none }

/-- The claim's example request: empty-array proof fields with two signals. -/
def reqEmptyArrays : ZKProofVerificationRequest :=
  { proof := some emptyArraysProof, publicSignals := some ["1", "2"],
    vkey := none, verifierUrl := none }

/-- C5 counterexample: the request with pi_a, pi_b, pi_c all present but empty
is NOT answered 400 "Invalid proof structure" — an empty array is truthy, so
the check passes and the structural fallback answers 200 verified=true. -/
theorem c5_counterexample :
    (handler3 reqEmptyArrays (DelegateOutcome.unreachable none) "T").status = 200 ∧
    (handler3 reqEmptyArrays (DelegateOutcome.unreachable none) "T").verified = true ∧
    (handler3 reqEmptyArrays (DelegateOutcome.unreachable none) "T").error = none := by
  decide

/-- C5 amended: the 400 "Invalid proof structure" rejection fires exactly when
the proof or one of pi_a, pi_b, pi_c is absent (falsy), independently of the
delegate and clock; a proof with all three fields present — even as empty
arrays — passes the structural check and the handler never answers the
invalid-proof-structure response for it. -/
theorem c5_amended_structure_check_is_presence_only :
    (∀ (req : ZKProofVerificationRequest) (d d' : DelegateOutcome) (n n' : String),
      proofStructureOk req.proof = false →
      handler3 req d n = invalidProofStructureResp ∧
      handler3 req d n = handler3 req d' n') ∧
    (∀ (req : ZKProofVerificationRequest) (d : DelegateOutcome) (n : String),
      proofStructureOk req.proof = true →
      handler3 req d n ≠ invalidProofStructureResp) ∧
    proofStructureOk (some emptyArraysProof) = true := by
  refine ⟨?_, ?_, by decide⟩
  · intro req d d' n n' h
    exact ⟨handler3_of_structBad req d n h,
      (handler3_of_structBad req d n h).trans (handler3_of_structBad req d' n' h).symm⟩
  · intro req d n h1 hcontra
    by_cases h2 : signalsOk req.publicSignals = true
    · by_cases h3 : delegateConfigured req = true
      · rw [handler3_of_delegate req d n h1 h2 h3] at hcontra
        cases d with
        | unreachable m =>
          have hst := congrArg HttpResponse.status hcontra
          simp [delegateBranch, invalidProofStructureResp] at hst
        | responded r =>
          by_cases hok : r.ok = true
          · have hst := congrArg HttpResponse.status hcontra
            simp [delegateBranch, hok, invalidProofStructureResp] at hst
          · have hok' : r.ok = false := by simpa using hok
            have hst := congrArg HttpResponse.status hcontra
            simp [delegateBranch, hok', invalidProofStructureResp] at hst
      · have h3' : delegateConfigured req = false := by simpa using h3
        rw [handler3_of_fallback req d n h1 h2 h3'] at hcontra
        have hst := congrArg HttpResponse.status hcontra
        simp [structuralFallbackResp, invalidProofStructureResp] at hst
    · have h2' : signalsOk req.publicSignals = false := by simpa using h2
      rw [handler3_of_sigsBad req d n h1 h2'] at hcontra
      exact (by decide : invalidPublicSignalsResp ≠ invalidProofStructureResp) hcontra

/-- Witness for the amended C5: a request with the proof field absent is
answered with the invalid-proof-structure response, and the empty-arrays
request is not. -/
theorem c5_amended_witness :
    handler3 { proof := none, publicSignals := some ["1", "2"], vkey := none,
               verifierUrl := none }
      (DelegateOutcome.unreachable none) "T" = invalidProofStructureResp ∧
    handler3 reqEmptyArrays (DelegateOutcome.unreachable none) "T" ≠
      invalidProofStructureResp := by
  constructor
  · exact (c5_amended_structure_check_is_presence_only.1
      { proof := none, publicSignals := some ["1", "2"], vkey := none,
        verifierUrl := none }
      (DelegateOutcome.unreachable none) (DelegateOutcome.unreachable none)
      "T" "T" (by decide)).1
  · exact c5_amended_structure_check_is_presence_only.2.1 reqEmptyArrays
      (DelegateOutcome.unreachable none) "T" (by decide)

/- ## C6 -/

/-- A well-formed request whose proof carries protocol "plonk". -/
def reqPlonk : ZKProofVerificationRequest :=
  { proof := some { pi_a := some ["1", "2", "1"],
                    pi_b := some [["4", "5"], ["6", "7"], ["1", "0"]],
                    pi_c := some ["10", "11", "1"],
                    protocol := some "plonk", curve := some "bn128" },
    publicSignals := some sampleSignals, vkey := none, verifierUrl := none }

/-- C6 counterexample: a request whose proof declares protocol "plonk" is not
rejected — the handler never inspects protocol or curve and answers 200
verified=true, contrary to the claim that such proofs are rejected as invalid
input. -/
theorem c6_counterexample :
    (handler3 reqPlonk (DelegateOutcome.unreachable none) "T").verified = true ∧
    (handler3 reqPlonk (DelegateOutcome.unreachable none) "T").status = 200 := by
  decide

/-- C6 amended: the protocol and curve fields are declared in the request
interface but never validated; the handler's response is independent of them. -/
theorem c6_amended_protocol_curve_ignored
    (req : ZKProofVerificationRequest) (d : DelegateOutcome) (n : String)
    (pr : Groth16Proof) (p c : Option String) (h : req.proof = some pr) :
    handler3 { req with proof := some { pr with protocol := p, curve := c } } d n
      = handler3 req d n := by
  cases req with
  | mk proofF signalsF vkeyF urlF =>
    cases pr with
    | mk a b c0 p0 c1 =>
      simp only at h
      subst h
      rfl

/-- Witness for the amended C6: rewriting the sample proof's protocol and
curve leaves the concrete response unchanged. -/
theorem c6_amended_witness :
    handler3 { reqFallback with
      proof := some { sampleProof with protocol := some "plonk", curve := some "bls12-381" } }
      (DelegateOutcome.unreachable none) "T"
      = handler3 reqFallback (DelegateOutcome.unreachable none) "T" := by
  exact c6_amended_protocol_curve_ignored reqFallback
    (DelegateOutcome.unreachable none) "T" sampleProof
    (some "plonk") (some "bls12-381") rfl

/- ## C8 -/

/-- A second-variant request fixture. -/
def req2Sample : ZKRequest2 :=
  { proof := some sampleProof, publicSignals := some sampleSignals }

/-- C8 counterexample: two requests for the same (only) circuit perform two
verification-key fetches, refuting "the backing source is fetched at most once
per process lifetime". -/
theorem c8_counterexample :
    processVkeyFetches
      [(req2Sample, VkeyFetchResult.notOk), (req2Sample, VkeyFetchResult.notOk)] = 2 ∧
    ¬ processVkeyFetches
      [(req2Sample, VkeyFetchResult.notOk), (req2Sample, VkeyFetchResult.notOk)] ≤ 1 := by
  decide

/-- C8 amended: there is no key cache and no single-flight — the handler
fetches the verification key from the backing source on every request, so a
process serving n requests performs exactly n fetches. -/
theorem c8_amended_fetch_per_request (calls : List (ZKRequest2 × VkeyFetchResult)) :
    processVkeyFetches calls = calls.length := by
  induction calls with
  | nil => rfl
  | cons hd tl ih =>
    simp [processVkeyFetches, handler2VkeyFetchCount] at ih ⊢
    omega

/- ## C9 -/

/-- C9 counterexample: identical request, identical delegate response (a 200
acceptance without a timestamp field), but two different clock readings yield
different outcomes — the timestamp field falls back to the current time — so
outcomes are not identical across calls with identical input, state and
collaborator responses. -/
theorem c9_counterexample :
    handler3 reqDelegate (DelegateOutcome.responded delegateAcceptsNoTs)
        "2025-01-01T00:00:00.000Z" ≠
    handler3 reqDelegate (DelegateOutcome.responded delegateAcceptsNoTs)
        "2025-01-01T00:00:01.000Z" := by
  decide

/-- C9 amended: the handler is a pure function of the request, the delegate
outcome and the clock; every response field except the timestamp is
independent of the clock, and when the delegate supplies a non-empty timestamp
the whole response is clock-independent.  Only the delegate-success path with
a missing/empty delegate timestamp reads the clock. -/
theorem c9_amended_deterministic_up_to_timestamp :
    (∀ (req : ZKProofVerificationRequest) (d : DelegateOutcome) (n₁ n₂ : String),
      stripTimestamp (handler3 req d n₁) = stripTimestamp (handler3 req d n₂)) ∧
    (∀ (req : ZKProofVerificationRequest) (r : DelegateResponse) (n₁ n₂ : String)
        (t : String), r.dataTimestamp = some t → t ≠ "" →
      handler3 req (DelegateOutcome.responded r) n₁ =
        handler3 req (DelegateOutcome.responded r) n₂) := by
  constructor
  · intro req d n₁ n₂
    by_cases h1 : proofStructureOk req.proof = true
    · by_cases h2 : signalsOk req.publicSignals = true
      · by_cases h3 : delegateConfigured req = true
        · rw [handler3_of_delegate req d n₁ h1 h2 h3,
              handler3_of_delegate req d n₂ h1 h2 h3]
          cases d with
          | unreachable m => rfl
          | responded r =>
            by_cases hok : r.ok = true
            · simp [delegateBranch, hok, stripTimestamp]
            · have hok' : r.ok = false := by simpa using hok
              simp [delegateBranch, hok']
        · have h3' : delegateConfigured req = false := by simpa using h3
          rw [handler3_of_fallback req d n₁ h1 h2 h3',
              handler3_of_fallback req d n₂ h1 h2 h3']
      · have h2' : signalsOk req.publicSignals = false := by simpa using h2
        rw [handler3_of_sigsBad req d n₁ h1 h2', handler3_of_sigsBad req d n₂ h1 h2']
    · have h1' : proofStructureOk req.proof = false := by simpa using h1
      rw [handler3_of_structBad req d n₁ h1', handler3_of_structBad req d n₂ h1']
  · intro req r n₁ n₂ t ht htne
    by_cases h1 : proofStructureOk req.proof = true
    · by_cases h2 : signalsOk req.publicSignals = true
      · by_cases h3 : delegateConfigured req = true
        · rw [handler3_of_delegate req (DelegateOutcome.responded r) n₁ h1 h2 h3,
              handler3_of_delegate req (DelegateOutcome.responded r) n₂ h1 h2 h3]
          by_cases hok : r.ok = true
          · simp [delegateBranch, hok, jsOr, ht, htne]
          · have hok' : r.ok = false := by simpa using hok
            simp [delegateBranch, hok']
        · have h3' : delegateConfigured req = false := by simpa using h3
          rw [handler3_of_fallback req (DelegateOutcome.responded r) n₁ h1 h2 h3',
              handler3_of_fallback req (DelegateOutcome.responded r) n₂ h1 h2 h3']
      · have h2' : signalsOk req.publicSignals = false := by simpa using h2
        rw [handler3_of_sigsBad req (DelegateOutcome.responded r) n₁ h1 h2',
            handler3_of_sigsBad req (DelegateOutcome.responded r) n₂ h1 h2']
    · have h1' : proofStructureOk req.proof = false := by simpa using h1
      rw [handler3_of_structBad req (DelegateOutcome.responded r) n₁ h1',
          handler3_of_structBad req (DelegateOutcome.responded r) n₂ h1']

/-- Witness for the amended C9 at concrete inputs: with a delegate-supplied
timestamp the response is identical across two clock readings. -/
theorem c9_amended_witness :
    handler3 reqDelegate (DelegateOutcome.responded delegateAcceptsTs) "A" =
      handler3 reqDelegate (DelegateOutcome.responded delegateAcceptsTs) "B" := by
  exact c9_amended_deterministic_up_to_timestamp.2 reqDelegate delegateAcceptsTs
    "A" "B" "2025-01-01T00:00:00.000Z" rfl (by decide)

/- ## C10 -/

/-- C10: response invariant of the full serve body — verified=true only with
status 200; every non-200 response has verified=false and an error field; and
the status is one of 200, 400, 502, 500. -/
theorem c10_status_body_invariant (p : ParseOutcome) (d : DelegateOutcome) (n : String) :
    ((serve3 p d n).verified = true → (serve3 p d n).status = 200) ∧
    ((serve3 p d n).status ≠ 200 →
      (serve3 p d n).verified = false ∧ (serve3 p d n).error ≠ none) ∧
    ((serve3 p d n).status = 200 ∨ (serve3 p d n).status = 400 ∨
      (serve3 p d n).status = 502 ∨ (serve3 p d n).status = 500) := by
  cases p with
  | jsError m => simp [serve3, resp500]
  | ok req =>
    have hs : serve3 (ParseOutcome.ok req) d n = handler3 req d n := rfl
    rw [hs]
    by_cases h1 : proofStructureOk req.proof = true
    · by_cases h2 : signalsOk req.publicSignals = true
      · by_cases h3 : delegateConfigured req = true
        · rw [handler3_of_delegate req d n h1 h2 h3]
          cases d with
          | unreachable m => simp [delegateBranch]
          | responded r =>
            by_cases hok : r.ok = true
            · simp [delegateBranch, hok]
            · have hok' : r.ok = false := by simpa using hok
              simp [delegateBranch, hok']
        · have h3' : delegateConfigured req = false := by simpa using h3
          rw [handler3_of_fallback req d n h1 h2 h3']
          simp [structuralFallbackResp]
      · have h2' : signalsOk req.publicSignals = false := by simpa using h2
        rw [handler3_of_sigsBad req d n h1 h2']
        simp [invalidPublicSignalsResp]
    · have h1' : proofStructureOk req.proof = false := by simpa using h1
      rw [handler3_of_structBad req d n h1']
      simp [invalidProofStructureResp]

/-- Witness for C10 at a concrete accepted request: verified=true comes with
status 200. -/
theorem c10_witness :
    (serve3 (ParseOutcome.ok reqFallback) (DelegateOutcome.unreachable none) "T").verified
      = true ∧
    (serve3 (ParseOutcome.ok reqFallback) (DelegateOutcome.unreachable none) "T").status
      = 200 := by
  refine ⟨by decide, ?_⟩
  exact (c10_status_body_invariant (ParseOutcome.ok reqFallback)
    (DelegateOutcome.unreachable none) "T").1 (by decide)
